import Mathlib

/-!
Shallow embedding of the token-persistence engine of
x_make_persistent_env_var_x.  The repository ships only the tests
(src/tests) and a thin launcher (src/tools/top_secret_loader.py); the core
module x_cls_make_persistent_env_var_x.py itself is not under src/, so the
engine is modelled from the specification (spec.md), with the concrete
values that the repository's own tests pin (the powershell command shape
parsed by the fake backends, and MISSING_EXIT_CODE = 2 from
src/tests/test_persistent_env.py) taken from those tests.
-/

namespace PersistEnv

/-- Modelled from the spec: §3 TokenSpec, name plus display label plus
required flag.  The core module defining the Python dataclass is not under
src/; the shape is pinned by both spec §3 and the tests' token payloads. -/
structure TokenSpec where
  name : String
  label : String
  required : Bool
deriving DecidableEq, Repr

/-- Modelled from the spec: §3 TokenOutcome's status vocabulary
{persisted, unchanged, skipped, failed}. -/
inductive Status where
  | persisted
  | unchanged
  | skipped
  | failed
deriving DecidableEq, Repr

/-- Modelled from the spec: the durable store (and likewise the in-process
environment) is a total map from variable names to values; an unset
variable reads as the empty string (§4.3: read returns the current durable
value, or empty string if unset). -/
def Store : Type := String → String

/-- Pointwise update of a store, the semantic effect of a successful
adapter write. -/
def updateStore (s : Store) (n v : String) : Store :=
  fun k => if k = n then v else s k

/-- The empty store / empty environment: every name is unset. -/
def emptyStore : Store := fun _ => ""

/-- Modelled from the spec: §4.3 and §5, each adapter operation is a single
synchronous external call; the trace of calls a run issues is recorded so
that claims about "no write issued" are statable. -/
inductive AdapterCall where
  | read (name : String)
  | write (name : String) (value : String)
deriving DecidableEq, Repr

/-- True exactly on adapter write calls. -/
def isWrite : AdapterCall → Bool
  | AdapterCall.write _ _ => true
  | AdapterCall.read _ => false

/-- True exactly on adapter writes that target the given name. -/
def isWriteTo (name : String) : AdapterCall → Bool
  | AdapterCall.write n _ => n = name
  | AdapterCall.read _ => false

/-- Base for the injective character encoding used by the fingerprint
model: one more than the number of UInt32 code points, so every
character code plus one is a nonzero digit strictly below the base. -/
def CHAR_BASE : Nat := 4294967297

/-- Modelled from the spec: §4.2 fingerprint — a deterministic digest of a
string value, injective on values, whose output is not the value itself.
The reference implementation's hash function is not under src/; the model
uses an injective base-CHAR_BASE encoding of the character codes. -/
def encodeChars : List Char → Nat
  | [] => 0
  | c :: cs => (c.toNat + 1) + CHAR_BASE * encodeChars cs

/-- Fingerprint of a string value (spec §4.2): deterministic and
collision-free, distinguishing the empty string from every other value. -/
def fingerprint (v : String) : Nat := encodeChars v.data

/-- Modelled from the spec: the literal redaction placeholder shown for a
non-empty secret value; pinned by the worked example in spec §8 and by
test_main_json_persist_values_success (stored == "<hidden>"). -/
def HIDDEN_PLACEHOLDER : String := "<hidden>"

/-- Modelled from the spec: §4.2's "explicit empty marker" shown for an
empty/absent secret value. -/
def EMPTY_MARKER : String := "<empty>"

/-- Modelled from the spec: §8's worked example treats DEBUG as the
non-secret token whose display is a constant set/unset indicator rather
than the hidden placeholder (value "0" displays as "1" because the value
is non-empty).  The reference catalog of non-secret names is not under
src/; DEBUG is the one name the spec and tests pin. -/
def NON_SECRET_NAMES : List String := ["DEBUG"]

/-- A token name is secret unless listed as non-secret. -/
def isSecret (name : String) : Bool := !(NON_SECRET_NAMES.contains name)

/-- Modelled from the spec: §4.2 display — never the raw value: secret
tokens show the constant placeholder (or the empty marker when empty);
non-secret tokens show the constant set indicator "1" (or "0" when
empty), matching the spec §8 example where supplied value "0" is
displayed as "1". -/
def display (name v : String) : String :=
  if v = "" then
    if isSecret name then EMPTY_MARKER else "0"
  else
    if isSecret name then HIDDEN_PLACEHOLDER else "1"

/-- Modelled from the spec: §3 TokenOutcome.  stored_hash is the
fingerprint of the value actually read or written (none when no value was
read or written); stored is the redacted display value. -/
structure TokenOutcome where
  name : String
  status : Status
  attempted : Bool
  changed : Bool
  stored : String
  stored_hash : Option Nat
  error : Option String
deriving DecidableEq, Repr

/-- Modelled from the spec: §3 Summary, derived from the outcomes. -/
structure Summary where
  action : String
  tokens_modified : Nat
  tokens_skipped : Nat
  tokens_failed : Nat
  exit_code : Nat
deriving DecidableEq, Repr

/-- Modelled from the spec: §3 EnvironmentSnapshot, redacted views of the
supplied values and of the post-run durable values. -/
structure Snapshot where
  provided : List (String × String)
  user : List (String × String)
deriving DecidableEq, Repr

/-- Modelled from the spec: §3 Response, success shape or failure shape. -/
inductive Response where
  | success (summary : Summary) (results : List TokenOutcome) (snapshot : Snapshot)
  | failure (message : String) (exit_code : Nat)
deriving DecidableEq, Repr

/-- The double-quote character, written by code point to keep literals
uniform. -/
def quoteChar : Char := Char.ofNat 34

/-- The powershell escape character (backtick), written by code point. -/
def escChar : Char := Char.ofNat 96

/-- Modelled from the spec: §4.3's requirement that the adapter safely
escapes values crossing the command boundary.  Each quote or escape
character in the payload is preceded by the escape character, the standard
powershell double-quoted-string escaping; the escaping code itself is not
under src/. -/
def escapeChars : List Char → List Char
  | [] => []
  | c :: cs =>
    if c = quoteChar || c = escChar then escChar :: c :: escapeChars cs
    else c :: escapeChars cs

/-- Wrap a string in double quotes after escaping its content. -/
def psQuote (s : String) : String :=
  String.mk (quoteChar :: (escapeChars s.data ++ [quoteChar]))

/-- Fixed head of the set command; the
[Environment]::SetEnvironmentVariable / GetEnvironmentVariable command
shape is pinned by the fake backends in both test files, which route on
those substrings and take the first and second quoted argument. -/
def SET_HEAD : String := "[Environment]::SetEnvironmentVariable("

/-- Separator between quoted arguments of the command. -/
def ARG_SEP : String := ", "

/-- Fixed tail of the set command: the user-scope argument and the closing
parenthesis. -/
def SET_TAIL : String := ", " ++ psQuote "User" ++ ")"

/-- Modelled from the spec: §4.3 write — the adapter builds one external
command carrying the name and the value, both quoted and escaped. -/
def buildSetCommand (n v : String) : String :=
  SET_HEAD ++ psQuote n ++ ARG_SEP ++ psQuote v ++ SET_TAIL

/-- Consume an expected literal prefix of the character stream. -/
def dropPre : List Char → List Char → Option (List Char)
  | [], rest => some rest
  | _ :: _, [] => none
  | p :: ps, c :: cs => if p = c then dropPre ps cs else none

/-- Consume one opening quote. -/
def expectQuote : List Char → Option (List Char)
  | [] => none
  | c :: cs => if c = quoteChar then some cs else none

/-- Read a powershell double-quoted string body up to its unescaped
closing quote, undoing the escape character; this is how the shell that
executes the adapter's command delimits the argument, so it decides
whether a value can break out of its quotes. -/
def unquoteChars : List Char → Option (List Char × List Char)
  | [] => none
  | c :: cs =>
    if c = quoteChar then some ([], cs)
    else if c = escChar then
      match cs with
      | [] => none
      | d :: ds =>
        match unquoteChars ds with
        | none => none
        | some (v, rest) => some (d :: v, rest)
    else
      match unquoteChars cs with
      | none => none
      | some (v, rest) => some (c :: v, rest)

/-- Parse a set command back into the name and value the executing shell
would see: fixed prefix, quoted name, separator, quoted value, fixed
tail. -/
def parseSetCommand (cmd : String) : Option (String × String) :=
  match dropPre SET_HEAD.data cmd.data with
  | none => none
  | some r1 =>
    match expectQuote r1 with
    | none => none
    | some r2 =>
      match unquoteChars r2 with
      | none => none
      | some (n, r3) =>
        match dropPre ARG_SEP.data r3 with
        | none => none
        | some r4 =>
          match expectQuote r4 with
          | none => none
          | some r5 =>
            match unquoteChars r5 with
            | none => none
            | some (v, r6) =>
              if r6 = SET_TAIL.data then some (String.mk n, String.mk v)
              else none

/-- Semantics of executing a set command against the durable store: the
command is parsed as the shell would parse it and the named variable is
set to the value the shell decodes; an unparseable command has no
defined effect. -/
def executeSet (cmd : String) (store : Store) : Option Store :=
  match parseSetCommand cmd with
  | none => none
  | some nv => some (updateStore store nv.1 nv.2)

/-- The adapter's write operation: build the external command for the name
and value and execute it against the durable store. -/
def adapterWrite (n v : String) (store : Store) : Store :=
  match executeSet (buildSetCommand n v) store with
  | some s => s
  | none => store

/-- Modelled from the spec: §4.4 persist-current, per token: read the
value from the current in-process environment; absent/empty and required
is failed (attempted=false), absent/empty and optional is skipped; present
compares the durable value's fingerprint and either leaves the store
unchanged or writes through the adapter.  The pure model's adapter write
always succeeds (the tests' fake backends always return success), so the
adapter-failure branch of §4.4 does not arise. -/
def resolveCurrent (env : Store) (store : Store) (t : TokenSpec) :
    TokenOutcome × Store × List AdapterCall :=
  let v := env t.name
  if v = "" then
    if t.required then
      (⟨t.name, Status.failed, false, false, display t.name "", none,
        some ("required value missing: " ++ t.name)⟩, store, [])
    else
      (⟨t.name, Status.skipped, false, false, display t.name "", none, none⟩,
        store, [])
  else
    let d := store t.name
    if fingerprint d = fingerprint v then
      (⟨t.name, Status.unchanged, true, false, display t.name v,
        some (fingerprint v), none⟩, store, [AdapterCall.read t.name])
    else
      (⟨t.name, Status.persisted, true, true, display t.name v,
        some (fingerprint v), none⟩, adapterWrite t.name v store,
        [AdapterCall.read t.name, AdapterCall.write t.name v])

/-- Modelled from the spec: §4.4 persist-values, per token: look the token
up in the request's values mapping; missing and required is failed,
missing and optional is skipped; present with include_existing=false first
reads the durable store and skips when a non-empty durable value exists,
otherwise fingerprint-compares against the (now known) durable value;
present with include_existing=true writes directly. -/
def resolveValues (values : String → Option String) (includeExisting : Bool)
    (store : Store) (t : TokenSpec) :
    TokenOutcome × Store × List AdapterCall :=
  match values t.name with
  | none =>
    if t.required then
      (⟨t.name, Status.failed, false, false, display t.name "", none,
        some ("required value missing: " ++ t.name)⟩, store, [])
    else
      (⟨t.name, Status.skipped, false, false, display t.name "", none, none⟩,
        store, [])
  | some v =>
    if includeExisting then
      (⟨t.name, Status.persisted, true, true, display t.name v,
        some (fingerprint v), none⟩, adapterWrite t.name v store,
        [AdapterCall.write t.name v])
    else
      let d := store t.name
      if d = "" then
        if fingerprint d = fingerprint v then
          (⟨t.name, Status.unchanged, true, false, display t.name v,
            some (fingerprint v), none⟩, store, [AdapterCall.read t.name])
        else
          (⟨t.name, Status.persisted, true, true, display t.name v,
            some (fingerprint v), none⟩, adapterWrite t.name v store,
            [AdapterCall.read t.name, AdapterCall.write t.name v])
      else
        (⟨t.name, Status.skipped, false, false, display t.name d,
          some (fingerprint d), none⟩, store, [AdapterCall.read t.name])

/-- Fold a per-token step over the declared token list in request order,
threading the durable store and concatenating the adapter-call traces
(spec §5: strictly serial, one token at a time). -/
def runTokens (step : Store → TokenSpec → TokenOutcome × Store × List AdapterCall) :
    Store → List TokenSpec → List TokenOutcome × Store × List AdapterCall
  | st, [] => ([], st, [])
  | st, t :: ts =>
    let r := step st t
    let rest := runTokens step r.2.1 ts
    (r.1 :: rest.1, rest.2.1, r.2.2 ++ rest.2.2)

/-- Count of outcomes carrying a given status. -/
def countStatus (s : Status) (rs : List TokenOutcome) : Nat :=
  rs.countP (fun o => decide (o.status = s))

/-- Exit code returned both for a failing required token
(test_persist_current_skips_missing_variables pins
MISSING_EXIT_CODE = 2) and for a payload failing validation
(test_main_json_invalid_payload_returns_failure pins exit_code 2). -/
def MISSING_EXIT_CODE : Nat := 2

/-- Modelled from the spec: §4.6 aggregation — counts per status, and
exit code 0 exactly when no token failed, else the fixed failure code. -/
def aggregate (action : String) (rs : List TokenOutcome) : Summary :=
  ⟨action, countStatus Status.persisted rs, countStatus Status.skipped rs,
    countStatus Status.failed rs,
    if countStatus Status.failed rs = 0 then 0 else MISSING_EXIT_CODE⟩

/-- Modelled from the spec: §4.4 to §4.6 — run the action over the token
list, then build the summary and the redacted environment snapshot
(provided values, and a fresh post-run read of every token's durable
value). -/
def runEngine (action : String) (env : Store) (values : String → Option String)
    (includeExisting : Bool) (specs : List TokenSpec) (store : Store) :
    Response × Store × List AdapterCall :=
  let step : Store → TokenSpec → TokenOutcome × Store × List AdapterCall :=
    fun st t =>
      if action = "persist-current" then resolveCurrent env st t
      else resolveValues values includeExisting st t
  let stepRes := runTokens step store specs
  let results := stepRes.1
  let finalStore := stepRes.2.1
  let provided :=
    if action = "persist-current" then
      specs.filterMap (fun t =>
        if env t.name = "" then none
        else some (t.name, display t.name (env t.name)))
    else
      specs.filterMap (fun t =>
        (values t.name).map (fun w => (t.name, display t.name w)))
  let user := specs.map (fun t => (t.name, display t.name (finalStore t.name)))
  let snapReads := specs.map (fun t => AdapterCall.read t.name)
  (Response.success (aggregate action results) results ⟨provided, user⟩,
    finalStore, stepRes.2.2 ++ snapReads)

/-- Modelled from the spec: §3/§6 request parameters; optional fields are
options, values is an association list. -/
structure Params where
  action : String
  tokens : Option (List TokenSpec)
  values : Option (List (String × String))
  include_existing : Option Bool
  quiet : Option Bool

/-- Modelled from the spec: §6 input contract — a command constant plus
the parameters object. -/
structure Payload where
  command : String
  params : Params

/-- Modelled from the spec: §4.1 — the built-in catalog of well-known
tokens used when a request omits an explicit token list.  The catalog
lives in the module missing from src/; the entries and their required
flags are pinned by the three test_default_token_specs tests. -/
def DEFAULT_TOKEN_SPECS : List TokenSpec :=
  [⟨"SLACK_TOKEN", "Slack token", true⟩,
   ⟨"SLACK_BOT_TOKEN", "Slack bot token", false⟩,
   ⟨"COPILOT_REQUESTS_PAT", "Copilot Requests PAT", true⟩]

/-- Token list of a run: the caller's list when supplied, else the
default catalog (spec §4.1: a caller list fully replaces the defaults). -/
def specsOf (p : Payload) : List TokenSpec :=
  (p.params.tokens).getD DEFAULT_TOKEN_SPECS

/-- Lookup function over the request's values mapping. -/
def valuesFun (p : Payload) : String → Option String :=
  fun n => List.lookup n ((p.params.values).getD [])

/-- Modelled from the spec: §6 input schema — the command constant, an
action from the two-element enum, and values required when the action is
persist-values.  The JSON schema itself (json_contracts.py) is not under
src/. -/
def validatePayload (p : Payload) : Bool :=
  decide (p.command = "x_make_persistent_env_var_x") &&
  (decide (p.params.action = "persist-current") ||
    decide (p.params.action = "persist-values")) &&
  (!(decide (p.params.action = "persist-values")) || (p.params.values).isSome)

/-- Message of the failure response, pinned by
test_main_json_reports_validation_errors. -/
def VALIDATION_FAILURE_MESSAGE : String := "input payload failed validation"

/-- Modelled from the spec: §4.5 — validate the inbound payload; on
failure short-circuit to the failure response without touching the store;
on success dispatch to the engine by action. -/
def main_json (p : Payload) (env : Store) (store : Store) :
    Response × Store × List AdapterCall :=
  if validatePayload p then
    runEngine p.params.action env (valuesFun p)
      ((p.params.include_existing).getD false) (specsOf p) store
  else
    (Response.failure VALIDATION_FAILURE_MESSAGE MISSING_EXIT_CODE, store, [])

/-- Results list of a response (empty for the failure shape). -/
def resultsOfResp : Response → List TokenOutcome
  | Response.success _ rs _ => rs
  | Response.failure _ _ => []

/-- Summary of a response (none for the failure shape). -/
def summaryOfResp : Response → Option Summary
  | Response.success s _ _ => some s
  | Response.failure _ _ => none

/-- Snapshot of a response (none for the failure shape). -/
def snapshotOfResp : Response → Option Snapshot
  | Response.success _ _ snap => some snap
  | Response.failure _ _ => none

/-- First outcome row of a response. -/
def firstOutcome (r : Response) : Option TokenOutcome :=
  (resultsOfResp r).head?

/-- Writes contained in an adapter-call trace. -/
def writesOf (tr : List AdapterCall) : List AdapterCall :=
  tr.filter isWrite

/-- Concrete request of the spec §8 worked example: persist-values for a
required API_TOKEN and an optional DEBUG with include_existing=true. -/
def examplePayloadValues : Payload :=
  ⟨"x_make_persistent_env_var_x",
    ⟨"persist-values",
      some [⟨"API_TOKEN", "API token", true⟩, ⟨"DEBUG", "Debug flag", false⟩],
      some [("API_TOKEN", "secret"), ("DEBUG", "0")],
      some true, some true⟩⟩

/-- Concrete request supplying, for a secret token, the raw value that is
literally the redaction placeholder string. -/
def secretPlaceholderPayload : Payload :=
  ⟨"x_make_persistent_env_var_x",
    ⟨"persist-values", some [⟨"SEC", "Secret", true⟩],
      some [("SEC", "<hidden>")], some true, some true⟩⟩

/-- Concrete request with an action outside the schema enum. -/
def invalidActionPayload : Payload :=
  ⟨"x_make_persistent_env_var_x", ⟨"invalid", none, none, none, none⟩⟩

/-- Concrete persist-current request declaring one required token FOO
(the situation of test_persist_current_skips_missing_variables when FOO
is absent from the environment). -/
def requiredMissingPayload : Payload :=
  ⟨"x_make_persistent_env_var_x",
    ⟨"persist-current", some [⟨"FOO", "Foo token", true⟩], none, none,
      some true⟩⟩

/-- Concrete persist-values request with include_existing=false declaring
one required token R whose value is absent from the values mapping. -/
def overwriteGuardPayload : Payload :=
  ⟨"x_make_persistent_env_var_x",
    ⟨"persist-values", some [⟨"R", "Required token", true⟩], some [],
      some false, some true⟩⟩

/-- Durable store in which R already holds a non-empty value. -/
def overwriteGuardStore : Store := fun n => if n = "R" then "x" else ""

/-- Persist-current request over a single caller-supplied token. -/
def singleCurrentPayload (t : TokenSpec) : Payload :=
  ⟨"x_make_persistent_env_var_x",
    ⟨"persist-current", some [t], none, none, some true⟩⟩

/-- Environment holding one variable FOO with the value secret. -/
def fooEnv : Store := fun n => if n = "FOO" then "secret" else ""

/-- Request that omits the token list, so the default catalog applies. -/
def defaultsPayload : Payload :=
  ⟨"x_make_persistent_env_var_x",
    ⟨"persist-current", none, none, none, none⟩⟩

/-- Persist-values request with include_existing=false for the optional
token KEEP, whose value is present in the values mapping. -/
def skipValuesPayload : Payload :=
  ⟨"x_make_persistent_env_var_x",
    ⟨"persist-values", some [⟨"KEEP", "Keep token", false⟩],
      some [("KEEP", "newvalue")], some false, some true⟩⟩

/-- Durable store in which KEEP already holds a non-empty value. -/
def skipValuesStore : Store := fun n => if n = "KEEP" then "old" else ""

theorem char_toNat_lt (c : Char) : c.toNat < 4294967296 :=
  UInt32.toNat_lt c.val

theorem encodeChars_inj : ∀ xs ys : List Char,
    encodeChars xs = encodeChars ys → xs = ys := by
  intro xs
  induction xs with
  | nil =>
    intro ys h
    cases ys with
    | nil => rfl
    | cons b bs =>
      exfalso
      simp only [encodeChars, CHAR_BASE] at h
      omega
  | cons a as ih =>
    intro ys h
    cases ys with
    | nil =>
      exfalso
      simp only [encodeChars, CHAR_BASE] at h
      omega
    | cons b bs =>
      simp only [encodeChars, CHAR_BASE] at h
      have ha := char_toNat_lt a
      have hb := char_toNat_lt b
      have hab : a.toNat = b.toNat ∧ encodeChars as = encodeChars bs := by
        constructor <;> omega
      have h1 : a = b := Char.eq_of_val_eq (UInt32.toNat.inj hab.1)
      have h2 : as = bs := ih bs hab.2
      rw [h1, h2]

theorem fingerprint_inj {v w : String} (h : fingerprint v = fingerprint w) :
    v = w := by
  have hd : v.data = w.data := encodeChars_inj v.data w.data h
  cases v
  cases w
  simp only at hd
  rw [hd]

theorem countStatus_partition (rs : List TokenOutcome) :
    countStatus Status.persisted rs + countStatus Status.skipped rs +
      countStatus Status.unchanged rs + countStatus Status.failed rs =
      rs.length := by
  induction rs with
  | nil => simp [countStatus]
  | cons o os ih =>
    cases h : o.status <;>
      simp [countStatus, List.countP_cons, h] at ih ⊢ <;> omega

theorem dropPre_append (p rest : List Char) : dropPre p (p ++ rest) = some rest := by
  induction p with
  | nil => rfl
  | cons c cs ih => simp [dropPre, ih]

theorem unquote_escape (v rest : List Char) :
    unquoteChars (escapeChars v ++ quoteChar :: rest) = some (v, rest) := by
  induction v with
  | nil =>
    show unquoteChars (quoteChar :: rest) = some ([], rest)
    unfold unquoteChars
    simp
  | cons c cs ih =>
    by_cases hq : c = quoteChar
    · subst hq
      show unquoteChars (escChar :: quoteChar :: (escapeChars cs ++ quoteChar :: rest)) =
        some (quoteChar :: cs, rest)
      unfold unquoteChars
      simp [show escChar ≠ quoteChar by decide, ih]
    · by_cases he : c = escChar
      · subst he
        show unquoteChars (escChar :: escChar :: (escapeChars cs ++ quoteChar :: rest)) =
          some (escChar :: cs, rest)
        unfold unquoteChars
        simp [show escChar ≠ quoteChar by decide, ih]
      · have hesc : escapeChars (c :: cs) = c :: escapeChars cs := by
          rw [escapeChars.eq_def]
          simp [hq, he]
        rw [hesc]
        show unquoteChars (c :: (escapeChars cs ++ quoteChar :: rest)) = some (c :: cs, rest)
        unfold unquoteChars
        simp [hq, he, ih]

theorem data_mk (l : List Char) : (String.mk l).data = l := rfl

theorem mk_data (s : String) : String.mk s.data = s := rfl

theorem parse_build (n v : String) :
    parseSetCommand (buildSetCommand n v) = some (n, v) := by
  have hdata : (buildSetCommand n v).data =
      SET_HEAD.data ++ (quoteChar :: (escapeChars n.data ++ quoteChar ::
        (ARG_SEP.data ++ (quoteChar :: (escapeChars v.data ++ quoteChar ::
          SET_TAIL.data))))) := by
    simp [buildSetCommand, psQuote, String.data_append, data_mk,
      List.append_assoc]
  unfold parseSetCommand
  rw [hdata, dropPre_append]
  simp [expectQuote, unquote_escape, dropPre_append, mk_data]

theorem executeSet_build (n v : String) (store : Store) :
    executeSet (buildSetCommand n v) store = some (updateStore store n v) := by
  simp [executeSet, parse_build]

theorem adapterWrite_eq (n v : String) (store : Store) :
    adapterWrite n v store = updateStore store n v := by
  simp [adapterWrite, executeSet_build]

theorem runTokens_accum
    (step : Store → TokenSpec → TokenOutcome × Store × List AdapterCall)
    (P : Store → Prop) (hP : ∀ st t, P st → P (step st t).2.1) :
    ∀ (ts : List TokenSpec) (st : Store), P st →
      P (runTokens step st ts).2.1 ∧
      (∀ o ∈ (runTokens step st ts).1, ∃ st' t, P st' ∧ o = (step st' t).1) ∧
      (∀ c ∈ (runTokens step st ts).2.2, ∃ st' t, P st' ∧ c ∈ (step st' t).2.2) := by
  intro ts
  induction ts with
  | nil =>
    intro st h
    refine ⟨h, ?_, ?_⟩ <;> simp [runTokens]
  | cons t ts ih =>
    intro st h
    obtain ⟨h1, h2, h3⟩ := ih ((step st t).2.1) (hP st t h)
    refine ⟨h1, ?_, ?_⟩
    · intro o ho
      simp only [runTokens, List.mem_cons] at ho
      rcases ho with rfl | ho
      · exact ⟨st, t, h, rfl⟩
      · exact h2 o ho
    · intro c hc
      simp only [runTokens, List.mem_append] at hc
      rcases hc with hc | hc
      · exact ⟨st, t, h, hc⟩
      · exact h3 c hc

theorem display_secret (n w : String) (h : isSecret n = true) :
    display n w = HIDDEN_PLACEHOLDER ∨ display n w = EMPTY_MARKER := by
  by_cases hw : w = "" <;> simp [display, hw, h]

theorem resolveCurrent_shape (env st : Store) (t : TokenSpec) :
    (resolveCurrent env st t).1.name = t.name ∧
    (∃ w, (resolveCurrent env st t).1.stored = display t.name w) ∧
    ((resolveCurrent env st t).1.stored_hash = none ∨
      ∃ u, (resolveCurrent env st t).1.stored_hash = some (fingerprint u)) := by
  by_cases hv : env t.name = ""
  · by_cases hr : t.required = true
    · simp [resolveCurrent, hv, hr]
    · simp [resolveCurrent, hv, hr]
  · by_cases hf : fingerprint (st t.name) = fingerprint (env t.name)
    · simp [resolveCurrent, hv, hf]
    · simp [resolveCurrent, hv, hf]

theorem resolveValues_shape (values : String → Option String)
    (incl : Bool) (st : Store) (t : TokenSpec) :
    (resolveValues values incl st t).1.name = t.name ∧
    (∃ w, (resolveValues values incl st t).1.stored = display t.name w) ∧
    ((resolveValues values incl st t).1.stored_hash = none ∨
      ∃ u, (resolveValues values incl st t).1.stored_hash = some (fingerprint u)) := by
  cases hv : values t.name with
  | none =>
    by_cases hr : t.required = true
    · simp [resolveValues, hv, hr]
    · simp [resolveValues, hv, hr]
  | some v =>
    cases incl with
    | true =>
      simp [resolveValues, hv]
    | false =>
      by_cases hd : st t.name = ""
      · by_cases hf : fingerprint (st t.name) = fingerprint v
        · have hf2 : fingerprint "" = fingerprint v := hd ▸ hf
          simp [resolveValues, hv, hd, hf, hf2]
        · have hf2 : ¬ fingerprint "" = fingerprint v := hd ▸ hf
          simp [resolveValues, hv, hd, hf, hf2]
      · simp [resolveValues, hv, hd]

theorem main_json_success_summary (p : Payload) (env store : Store)
    (s : Summary) (rs : List TokenOutcome) (snap : Snapshot)
    (h : (main_json p env store).1 = Response.success s rs snap) :
    s = aggregate p.params.action rs := by
  unfold main_json at h
  by_cases hval : validatePayload p = true
  · rw [if_pos hval] at h
    unfold runEngine at h
    simp only [Response.success.injEq] at h
    obtain ⟨h1, h2, h3⟩ := h
    rw [← h1, ← h2]
  · rw [if_neg hval] at h
    exact absurd h (by simp)

theorem resolveValues_preserve (values : String → Option String)
    (st : Store) (t : TokenSpec) (name : String) (hne : st name ≠ "") :
    (resolveValues values false st t).2.1 name = st name ∧
    (∀ c ∈ (resolveValues values false st t).2.2, isWriteTo name c = false) ∧
    (t.name = name → ∀ v, values t.name = some v →
      (resolveValues values false st t).1.status = Status.skipped ∧
      (resolveValues values false st t).1.attempted = false ∧
      (resolveValues values false st t).1.changed = false) := by
  cases hv : values t.name with
  | none =>
    by_cases hr : t.required = true <;> simp [resolveValues, hv, hr]
  | some v =>
    by_cases hd : st t.name = ""
    · have hnm : t.name ≠ name := by
        intro hcontra
        exact hne (hcontra ▸ hd)
      by_cases hf : fingerprint (st t.name) = fingerprint v
      · have hf2 : fingerprint "" = fingerprint v := hd ▸ hf
        simp [resolveValues, hv, hd, hf, hf2, hnm, isWriteTo]
      · have hf2 : ¬ fingerprint "" = fingerprint v := hd ▸ hf
        simp [resolveValues, hv, hd, hf, hf2, adapterWrite_eq, updateStore,
          isWriteTo, hnm, Ne.symm hnm]
    · simp [resolveValues, hv, hd, isWriteTo]

/-- C9: worked example — a persist-values request with tokens
[API_TOKEN required, DEBUG optional], values API_TOKEN:"secret",
DEBUG:"0", include_existing=true persists both tokens, the summary is
tokens_modified 2, tokens_failed 0, exit_code 0, results[0].stored is
"<hidden>" and results[1].stored is "1". -/
theorem C9_worked_example :
    (main_json examplePayloadValues emptyStore emptyStore).1 =
      Response.success ⟨"persist-values", 2, 0, 0, 0⟩
        [⟨"API_TOKEN", Status.persisted, true, true, HIDDEN_PLACEHOLDER,
            some (fingerprint "secret"), none⟩,
         ⟨"DEBUG", Status.persisted, true, true, "1",
            some (fingerprint "0"), none⟩]
        ⟨[("API_TOKEN", HIDDEN_PLACEHOLDER), ("DEBUG", "1")],
         [("API_TOKEN", HIDDEN_PLACEHOLDER), ("DEBUG", "1")]⟩ := by
  decide

/-- C10: when a request omits an explicit token list the default catalog
is used, and it contains SLACK_TOKEN with required=true, SLACK_BOT_TOKEN
with required=false and COPILOT_REQUESTS_PAT with required=true. -/
theorem C10_default_catalog :
    specsOf defaultsPayload = DEFAULT_TOKEN_SPECS ∧
    (DEFAULT_TOKEN_SPECS.any
      (fun s => decide (s.name = "SLACK_TOKEN") && s.required)) = true ∧
    (DEFAULT_TOKEN_SPECS.any
      (fun s => decide (s.name = "SLACK_BOT_TOKEN") && !s.required)) = true ∧
    (DEFAULT_TOKEN_SPECS.any
      (fun s => decide (s.name = "COPILOT_REQUESTS_PAT") && s.required)) = true := by
  decide

/-- C4: a payload that names an action outside the enum fails validation,
and every payload failing validation short-circuits to the failure
response with the fixed message and exit code 2, leaving the durable
store untouched and issuing no adapter call at all. -/
theorem C4_validation_short_circuit (p : Payload) (env store : Store) :
    ((p.params.action ≠ "persist-current" ∧ p.params.action ≠ "persist-values") →
      validatePayload p = false) ∧
    (validatePayload p = false →
      main_json p env store =
        (Response.failure VALIDATION_FAILURE_MESSAGE MISSING_EXIT_CODE, store, [])) := by
  constructor
  · intro h
    simp [validatePayload, h.1, h.2]
  · intro h
    simp [main_json, h]

/-- Witness for C4 at the concrete invalid-action payload. -/
theorem C4_validation_short_circuit_witness :
    validatePayload invalidActionPayload = false ∧
    main_json invalidActionPayload emptyStore emptyStore =
      (Response.failure VALIDATION_FAILURE_MESSAGE MISSING_EXIT_CODE, emptyStore, []) :=
  ⟨by decide,
    (C4_validation_short_circuit invalidActionPayload emptyStore emptyStore).2 (by decide)⟩

/-- C5: a required token whose value cannot be resolved — absent or empty
in the current environment for persist-current, or missing from the
values mapping for persist-values — always gets status failed and never
skipped, for both actions. -/
theorem C5_required_missing_failed (t : TokenSpec) (env store : Store)
    (values : String → Option String) (incl : Bool)
    (hreq : t.required = true) :
    (env t.name = "" →
      (resolveCurrent env store t).1.status = Status.failed ∧
      (resolveCurrent env store t).1.status ≠ Status.skipped) ∧
    (values t.name = none →
      (resolveValues values incl store t).1.status = Status.failed ∧
      (resolveValues values incl store t).1.status ≠ Status.skipped) := by
  constructor
  · intro hv
    simp [resolveCurrent, hv, hreq]
  · intro hv
    simp [resolveValues, hv, hreq]

/-- Witness for C5 at a concrete required token missing everywhere. -/
theorem C5_required_missing_failed_witness :
    (⟨"FOO", "Foo token", true⟩ : TokenSpec).required = true ∧
    emptyStore "FOO" = "" ∧
    (resolveCurrent emptyStore emptyStore ⟨"FOO", "Foo token", true⟩).1.status =
      Status.failed ∧
    (resolveValues (fun _ => none) false emptyStore
      ⟨"FOO", "Foo token", true⟩).1.status = Status.failed :=
  ⟨rfl, rfl,
    ((C5_required_missing_failed ⟨"FOO", "Foo token", true⟩ emptyStore emptyStore
      (fun _ => none) false rfl).1 rfl).1,
    ((C5_required_missing_failed ⟨"FOO", "Foo token", true⟩ emptyStore emptyStore
      (fun _ => none) false rfl).2 rfl).1⟩

/-- Counterexample to C1 as stated: when the raw secret value supplied for
the secret token SEC is the literal placeholder string, the outcome's
stored field equals that raw secret value, so "stored never equals the
raw secret value supplied in the request" fails at this input. -/
theorem C1_redaction_counterexample :
    List.lookup "SEC" ((secretPlaceholderPayload.params.values).getD []) =
      some "<hidden>" ∧
    (firstOutcome (main_json secretPlaceholderPayload emptyStore emptyStore).1).map
      TokenOutcome.stored = some "<hidden>" := by
  decide

/-- Counterexample to C3 as stated: at a run whose single required token
FOO is absent from the environment, the summary's nonzero exit code is 2,
which is the same value as the schema-failure exit code produced for an
invalid payload — not distinct from it. -/
theorem C3_exit_code_counterexample :
    (summaryOfResp (main_json requiredMissingPayload emptyStore emptyStore).1).map
      Summary.tokens_failed = some 1 ∧
    (summaryOfResp (main_json requiredMissingPayload emptyStore emptyStore).1).map
      Summary.exit_code = some 2 ∧
    (main_json invalidActionPayload emptyStore emptyStore).1 =
      Response.failure VALIDATION_FAILURE_MESSAGE 2 := by
  decide

/-- Counterexample to C6 as stated: in a persist-values run with
include_existing=false, the required token R has a non-empty durable
value but is missing from the values mapping, and its outcome is failed,
not skipped (the required-missing rule wins over the skip logic). -/
theorem C6_overwrite_counterexample :
    overwriteGuardStore "R" ≠ "" ∧
    (firstOutcome (main_json overwriteGuardPayload emptyStore overwriteGuardStore).1).map
      TokenOutcome.status = some Status.failed ∧
    Status.failed ≠ Status.skipped := by
  decide

/-- C3 (amended): for every run passing contract validation,
summary.exit_code is 0 exactly when tokens_failed is 0, and the nonzero
case is the fixed code MISSING_EXIT_CODE = 2 — which coincides with the
schema-failure exit code instead of being distinct from it. -/
theorem C3_exit_code_amended (p : Payload) (env store : Store)
    (s : Summary) (rs : List TokenOutcome) (snap : Snapshot)
    (h : (main_json p env store).1 = Response.success s rs snap) :
    (s.exit_code = 0 ↔ s.tokens_failed = 0) ∧
    (s.exit_code = 0 ∨ s.exit_code = MISSING_EXIT_CODE) ∧
    MISSING_EXIT_CODE = 2 := by
  have hs := main_json_success_summary p env store s rs snap h
  subst hs
  by_cases h0 : countStatus Status.failed rs = 0 <;>
    simp [aggregate, h0, MISSING_EXIT_CODE]

/-- Witness for C3 (amended) at the concrete required-missing run. -/
theorem C3_exit_code_amended_witness :
    (main_json requiredMissingPayload emptyStore emptyStore).1 =
      Response.success ⟨"persist-current", 0, 0, 1, 2⟩
        [⟨"FOO", Status.failed, false, false, EMPTY_MARKER, none,
          some "required value missing: FOO"⟩]
        ⟨[], [("FOO", EMPTY_MARKER)]⟩ ∧
    ((⟨"persist-current", 0, 0, 1, 2⟩ : Summary).exit_code = 0 ↔
      (⟨"persist-current", 0, 0, 1, 2⟩ : Summary).tokens_failed = 0) :=
  ⟨by decide,
    (C3_exit_code_amended requiredMissingPayload emptyStore emptyStore
      ⟨"persist-current", 0, 0, 1, 2⟩
      [⟨"FOO", Status.failed, false, false, EMPTY_MARKER, none,
        some "required value missing: FOO"⟩]
      ⟨[], [("FOO", EMPTY_MARKER)]⟩ (by decide)).1⟩

/-- C7: for every run producing a success-shaped response, the summary
counts are exactly the per-status counts of the results, and
tokens_modified + tokens_skipped + count "unchanged" + tokens_failed
equals the number of results. -/
theorem C7_aggregation (p : Payload) (env store : Store)
    (s : Summary) (rs : List TokenOutcome) (snap : Snapshot)
    (h : (main_json p env store).1 = Response.success s rs snap) :
    s.tokens_modified = countStatus Status.persisted rs ∧
    s.tokens_skipped = countStatus Status.skipped rs ∧
    s.tokens_failed = countStatus Status.failed rs ∧
    s.tokens_modified + s.tokens_skipped + countStatus Status.unchanged rs +
      s.tokens_failed = rs.length := by
  have hs := main_json_success_summary p env store s rs snap h
  subst hs
  refine ⟨rfl, rfl, rfl, ?_⟩
  have hp := countStatus_partition rs
  simp [aggregate]
  omega

/-- Witness for C7 at the concrete worked-example run. -/
theorem C7_aggregation_witness :
    (main_json examplePayloadValues emptyStore emptyStore).1 =
      Response.success ⟨"persist-values", 2, 0, 0, 0⟩
        [⟨"API_TOKEN", Status.persisted, true, true, HIDDEN_PLACEHOLDER,
            some (fingerprint "secret"), none⟩,
         ⟨"DEBUG", Status.persisted, true, true, "1",
            some (fingerprint "0"), none⟩]
        ⟨[("API_TOKEN", HIDDEN_PLACEHOLDER), ("DEBUG", "1")],
         [("API_TOKEN", HIDDEN_PLACEHOLDER), ("DEBUG", "1")]⟩ ∧
    (⟨"persist-values", 2, 0, 0, 0⟩ : Summary).tokens_modified =
      countStatus Status.persisted
        [⟨"API_TOKEN", Status.persisted, true, true, HIDDEN_PLACEHOLDER,
            some (fingerprint "secret"), none⟩,
         ⟨"DEBUG", Status.persisted, true, true, "1",
            some (fingerprint "0"), none⟩] :=
  ⟨by decide,
    (C7_aggregation examplePayloadValues emptyStore emptyStore
      ⟨"persist-values", 2, 0, 0, 0⟩
      [⟨"API_TOKEN", Status.persisted, true, true, HIDDEN_PLACEHOLDER,
          some (fingerprint "secret"), none⟩,
       ⟨"DEBUG", Status.persisted, true, true, "1",
          some (fingerprint "0"), none⟩]
      ⟨[("API_TOKEN", HIDDEN_PLACEHOLDER), ("DEBUG", "1")],
       [("API_TOKEN", HIDDEN_PLACEHOLDER), ("DEBUG", "1")]⟩ (by decide)).1⟩

/-- C1 (amended): in every success-shaped response, a secret token's
stored field is one of the two redaction constants (hence differs from
the raw value whenever the raw value is not itself that constant), every
snapshot entry for a secret token is likewise one of the two constants,
every stored_hash present is a fingerprint, and fingerprints agree
exactly when the underlying values agree. -/
theorem C1_redaction_amended (p : Payload) (env store : Store)
    (s : Summary) (rs : List TokenOutcome) (snap : Snapshot)
    (h : (main_json p env store).1 = Response.success s rs snap) :
    (∀ o ∈ rs,
      (isSecret o.name = true →
        o.stored = HIDDEN_PLACEHOLDER ∨ o.stored = EMPTY_MARKER) ∧
      (o.stored_hash = none ∨ ∃ u, o.stored_hash = some (fingerprint u))) ∧
    (∀ e ∈ snap.provided ++ snap.user, isSecret e.1 = true →
      e.2 = HIDDEN_PLACEHOLDER ∨ e.2 = EMPTY_MARKER) ∧
    (∀ v w : String, fingerprint v = fingerprint w ↔ v = w) := by
  unfold main_json at h
  by_cases hval : validatePayload p = true
  case neg =>
    rw [if_neg hval] at h
    exact absurd h (by simp)
  rw [if_pos hval] at h
  unfold runEngine at h
  simp only [Response.success.injEq] at h
  obtain ⟨h1, h2, h3⟩ := h
  refine ⟨?_, ?_, ?_⟩
  · intro o ho
    rw [← h2] at ho
    have hacc := (runTokens_accum
      (fun st t =>
        if p.params.action = "persist-current" then resolveCurrent env st t
        else resolveValues (valuesFun p) ((p.params.include_existing).getD false) st t)
      (fun _ => True) (fun _ _ _ => trivial) (specsOf p) store trivial).2.1
    obtain ⟨st2, t, -, rfl⟩ := hacc o ho
    by_cases hact : p.params.action = "persist-current"
    · rw [if_pos hact]
      obtain ⟨hn, ⟨w, hw⟩, hh⟩ := resolveCurrent_shape env st2 t
      refine ⟨?_, hh⟩
      intro hsec
      rw [hn] at hsec
      rw [hw]
      exact display_secret t.name w hsec
    · rw [if_neg hact]
      obtain ⟨hn, ⟨w, hw⟩, hh⟩ := resolveValues_shape (valuesFun p)
        ((p.params.include_existing).getD false) st2 t
      refine ⟨?_, hh⟩
      intro hsec
      rw [hn] at hsec
      rw [hw]
      exact display_secret t.name w hsec
  · intro e he hsec
    rw [← h3] at he
    simp only [List.mem_append] at he
    rcases he with he | he
    · by_cases hact : p.params.action = "persist-current"
      · rw [if_pos hact] at he
        simp only [List.mem_filterMap] at he
        obtain ⟨t, -, ht⟩ := he
        by_cases hv : env t.name = ""
        · rw [if_pos hv] at ht
          exact absurd ht (by simp)
        · rw [if_neg hv] at ht
          have he2 := Option.some.inj ht
          rw [← he2] at hsec ⊢
          exact display_secret t.name (env t.name) hsec
      · rw [if_neg hact] at he
        simp only [List.mem_filterMap, Option.map_eq_some'] at he
        obtain ⟨t, -, v, -, he2⟩ := he
        rw [← he2] at hsec ⊢
        exact display_secret t.name v hsec
    · simp only [List.mem_map] at he
      obtain ⟨t, -, he2⟩ := he
      rw [← he2] at hsec ⊢
      exact display_secret t.name _ hsec
  · intro v w
    constructor
    · exact fingerprint_inj
    · intro hvw
      rw [hvw]

/-- Witness for C1 (amended) at the concrete worked-example run. -/
theorem C1_redaction_amended_witness :
    (main_json examplePayloadValues emptyStore emptyStore).1 =
      Response.success ⟨"persist-values", 2, 0, 0, 0⟩
        [⟨"API_TOKEN", Status.persisted, true, true, HIDDEN_PLACEHOLDER,
            some (fingerprint "secret"), none⟩,
         ⟨"DEBUG", Status.persisted, true, true, "1",
            some (fingerprint "0"), none⟩]
        ⟨[("API_TOKEN", HIDDEN_PLACEHOLDER), ("DEBUG", "1")],
         [("API_TOKEN", HIDDEN_PLACEHOLDER), ("DEBUG", "1")]⟩ ∧
    (fingerprint "alpha" = fingerprint "beta" ↔ "alpha" = "beta") :=
  ⟨by decide,
    (C1_redaction_amended examplePayloadValues emptyStore emptyStore
      ⟨"persist-values", 2, 0, 0, 0⟩
      [⟨"API_TOKEN", Status.persisted, true, true, HIDDEN_PLACEHOLDER,
          some (fingerprint "secret"), none⟩,
       ⟨"DEBUG", Status.persisted, true, true, "1",
          some (fingerprint "0"), none⟩]
      ⟨[("API_TOKEN", HIDDEN_PLACEHOLDER), ("DEBUG", "1")],
       [("API_TOKEN", HIDDEN_PLACEHOLDER), ("DEBUG", "1")]⟩
      (by decide)).2.2 "alpha" "beta"⟩

/-- C6 (amended): in a persist-values run with include_existing=false,
a token whose durable value is already non-empty is never written — the
final durable value equals the initial one and no adapter write targets
it — and, when its value is present in the values mapping, its outcome is
skipped with attempted=false and changed=false; a required token missing
from the values mapping is failed instead. -/
theorem C6_no_overwrite_amended (p : Payload) (env store : Store)
    (name : String)
    (hact : p.params.action = "persist-values")
    (hincl : p.params.include_existing = some false)
    (hne : store name ≠ "") :
    (main_json p env store).2.1 name = store name ∧
    (∀ c ∈ (main_json p env store).2.2, isWriteTo name c = false) ∧
    (∀ o ∈ resultsOfResp (main_json p env store).1, o.name = name →
      ∀ v, valuesFun p name = some v →
        o.status = Status.skipped ∧ o.attempted = false ∧
          o.changed = false) := by
  by_cases hval : validatePayload p = true
  case neg =>
    simp [main_json, hval, resultsOfResp]
  have hmain : main_json p env store =
      runEngine "persist-values" env (valuesFun p) false (specsOf p) store := by
    unfold main_json
    rw [if_pos hval, hact, hincl]
    rfl
  rw [hmain]
  unfold runEngine
  have hcond : ("persist-values" = "persist-current") = False := by simp
  simp only [hcond, if_false]
  have hacc := runTokens_accum
    (fun st t => resolveValues (valuesFun p) false st t)
    (fun st => st name = store name)
    (fun st t hst => by
      rw [← hst]
      exact (resolveValues_preserve (valuesFun p) st t name
        (hst ▸ hne)).1)
    (specsOf p) store rfl
  refine ⟨hacc.1, ?_, ?_⟩
  · intro c hc
    simp only [List.mem_append] at hc
    rcases hc with hc | hc
    · obtain ⟨st2, t, hst2, hmem⟩ := hacc.2.2 c hc
      exact (resolveValues_preserve (valuesFun p) st2 t name
        (hst2 ▸ hne)).2.1 c hmem
    · simp only [List.mem_map] at hc
      obtain ⟨t, -, rfl⟩ := hc
      rfl
  · intro o ho hname v hv
    simp only [resultsOfResp] at ho
    obtain ⟨st2, t, hst2, rfl⟩ := hacc.2.1 o ho
    have hn := (resolveValues_shape (valuesFun p) false st2 t).1
    rw [hn] at hname
    exact (resolveValues_preserve (valuesFun p) st2 t name
      (hst2 ▸ hne)).2.2 hname v (hname ▸ hv)

/-- Witness for C6 (amended) at the concrete KEEP run. -/
theorem C6_no_overwrite_amended_witness :
    skipValuesPayload.params.action = "persist-values" ∧
    skipValuesPayload.params.include_existing = some false ∧
    skipValuesStore "KEEP" ≠ "" ∧
    (main_json skipValuesPayload emptyStore skipValuesStore).2.1 "KEEP" =
      skipValuesStore "KEEP" :=
  ⟨rfl, rfl, by decide,
    (C6_no_overwrite_amended skipValuesPayload emptyStore skipValuesStore
      "KEEP" rfl rfl (by decide)).1⟩

/-- C8: the adapter's set command quotes and escapes the token name and
value, so that executing the built command — parsed the way the shell
delimits quoted arguments, escape characters honoured — always assigns
exactly the passed value to the passed name: quote or control characters
in the value cannot alter the command, and the value written to the
durable store equals the value passed to write. -/
theorem C8_adapter_quoting (n v : String) (store : Store) :
    executeSet (buildSetCommand n v) store = some (updateStore store n v) ∧
    updateStore store n v n = v := by
  refine ⟨executeSet_build n v store, ?_⟩
  simp [updateStore]

/-- C2: persisting a value twice in a row for a token (persist-current,
the same in-process value both times, starting from a durable value that
differs) yields status persisted with stored_hash fingerprint v on the
first run and status unchanged with the identical stored_hash on the
second run, and the second run issues no adapter write at all. -/
theorem C2_idempotence (t : TokenSpec) (env store : Store) (v : String)
    (hv : env t.name = v) (hne : v ≠ "") (hd : store t.name ≠ v) :
    ((firstOutcome (main_json (singleCurrentPayload t) env store).1).map
        (fun o => (o.status, o.stored_hash)) =
      some (Status.persisted, some (fingerprint v))) ∧
    ((firstOutcome (main_json (singleCurrentPayload t) env
        ((main_json (singleCurrentPayload t) env store).2.1)).1).map
        (fun o => (o.status, o.stored_hash)) =
      some (Status.unchanged, some (fingerprint v))) ∧
    writesOf ((main_json (singleCurrentPayload t) env
        ((main_json (singleCurrentPayload t) env store).2.1)).2.2) = [] := by
  have hval : validatePayload (singleCurrentPayload t) = true := rfl
  have hfne : fingerprint (store t.name) ≠ fingerprint v := by
    intro hcontra
    exact hd (fingerprint_inj hcontra)
  have hrun1 : main_json (singleCurrentPayload t) env store =
      runEngine "persist-current" env (valuesFun (singleCurrentPayload t))
        false [t] store := by
    unfold main_json
    rw [if_pos hval]
    rfl
  have hres1 : resolveCurrent env store t =
      (⟨t.name, Status.persisted, true, true, display t.name v,
        some (fingerprint v), none⟩, adapterWrite t.name v store,
        [AdapterCall.read t.name, AdapterCall.write t.name v]) := by
    unfold resolveCurrent
    rw [hv]
    rw [if_neg hne, if_neg hfne]
  have hstore1 : (main_json (singleCurrentPayload t) env store).2.1 =
      updateStore store t.name v := by
    rw [hrun1]
    simp [runEngine, runTokens, hres1, adapterWrite_eq]
  have hs1v : (main_json (singleCurrentPayload t) env store).2.1 t.name = v := by
    rw [hstore1]
    simp [updateStore]
  have hres2 : resolveCurrent env
      ((main_json (singleCurrentPayload t) env store).2.1) t =
      (⟨t.name, Status.unchanged, true, false, display t.name v,
        some (fingerprint v), none⟩,
        (main_json (singleCurrentPayload t) env store).2.1,
        [AdapterCall.read t.name]) := by
    unfold resolveCurrent
    rw [hv, if_neg hne, hs1v, if_pos rfl]
  have hrun2 : main_json (singleCurrentPayload t) env
      ((main_json (singleCurrentPayload t) env store).2.1) =
      runEngine "persist-current" env (valuesFun (singleCurrentPayload t))
        false [t] ((main_json (singleCurrentPayload t) env store).2.1) := by
    unfold main_json
    rw [if_pos hval]
    rfl
  refine ⟨?_, ?_, ?_⟩
  · rw [hrun1]
    simp [runEngine, runTokens, hres1, firstOutcome, resultsOfResp]
  · rw [hrun2]
    simp [runEngine, runTokens, hres2, firstOutcome, resultsOfResp]
  · rw [hrun2]
    simp [runEngine, runTokens, hres2, writesOf, isWrite]

/-- Witness for C2 at the concrete token FOO with value secret. -/
theorem C2_idempotence_witness :
    fooEnv "FOO" = "secret" ∧ "secret" ≠ "" ∧ emptyStore "FOO" ≠ "secret" ∧
    ((firstOutcome (main_json (singleCurrentPayload ⟨"FOO", "Foo token", true⟩)
        fooEnv emptyStore).1).map (fun o => (o.status, o.stored_hash)) =
      some (Status.persisted, some (fingerprint "secret"))) :=
  ⟨by decide, by decide, by decide,
    (C2_idempotence ⟨"FOO", "Foo token", true⟩ fooEnv emptyStore "secret"
      (by decide) (by decide) (by decide)).1⟩

end PersistEnv
